import Mathlib

/-!
Verification of the aggregation pipeline of the Olist dashboard
(`src/dashboard/data.py` and `src/sections/seller_strategy.py`).

Modelling conventions:
* Dataframes are lists of records; a pandas group-by is a map over the
  first-occurrence-deduplicated key column (group-key order is irrelevant to
  every property stated below).
* Float arithmetic is modelled exactly over `ℚ`.
* `np.sqrt` is passed around as an uninterpreted parameter `sqrtF : ℚ → ℚ`:
  none of the stated properties depends on its values, only on both call
  sites receiving equal arguments.
* Nullable columns are `Option`-valued; `fillna` is `Option.getD`.
-/

namespace OlistDash


/-- Platform commission rate, `COMMISSION_RATE = 0.10` in `data.py`. -/
def COMMISSION_RATE : ℚ := 1 / 10

/-- Monthly seller subscription fee, `SUBSCRIPTION_FEE = 80` in `data.py`. -/
def SUBSCRIPTION_FEE : ℚ := 80

/-- IT-cost coefficient on the seller count, `ALPHA_IT = 3157.27`. -/
def ALPHA_IT : ℚ := 315727 / 100

/-- IT-cost coefficient on the item count, `BETA_IT = 978.23`. -/
def BETA_IT : ℚ := 97823 / 100

/-- Keys of a pandas group-by over `key`, in first-occurrence order. -/
def keysOf {α κ : Type} [DecidableEq κ] (key : α → κ) (l : List α) : List κ :=
  (l.map key).dedup

/-- Rows of `l` that fall into the group labelled `k`. -/
def groupRows {α κ : Type} [DecidableEq κ] (key : α → κ) (l : List α) (k : κ) :
    List α :=
  l.filter (fun x => decide (key x = k))

/-- Group-by `sum` aggregation of the column `val` for the group `k`. -/
def groupSum {α κ : Type} [DecidableEq κ] (key : α → κ) (val : α → ℚ) (l : List α)
    (k : κ) : ℚ :=
  ((groupRows key l k).map val).sum

/-! Seller training data (`Seller().get_training_data()`), restricted to the six
columns read by `compute_financial_overview` and `prepare_seller_strategy_data`. -/

/-- One row of the sellers table. -/
structure SellerRow where
  sales : ℚ
  months_on_olist : ℚ
  revenues : ℚ
  cost_of_reviews : ℚ
  quantity : ℚ
  profits : ℚ
deriving Repr, DecidableEq, Inhabited

/-- Scalar summary returned by `compute_financial_overview`. -/
structure FinancialOverview where
  revenues_sales : ℚ
  revenues_subscription : ℚ
  revenues_total : ℚ
  costs_reviews : ℚ
  costs_it : ℚ
  profits_gross : ℚ
  profits_net : ℚ
  margin : ℚ
  seller_count : ℕ
  item_count : ℚ
deriving Repr, DecidableEq

/-- Embedding of `compute_financial_overview` (`data.py` lines 228-253); the
Python conditional expression `x / r if r else 0.0` is the zero-guarded
division. -/
def compute_financial_overview (sqrtF : ℚ → ℚ) (sellers_df : List SellerRow) :
    FinancialOverview :=
  let revenues_sales := (sellers_df.map (·.sales)).sum * COMMISSION_RATE
  let revenues_subscription := (sellers_df.map (·.months_on_olist)).sum * SUBSCRIPTION_FEE
  let revenues_total := (sellers_df.map (·.revenues)).sum
  let costs_reviews := (sellers_df.map (·.cost_of_reviews)).sum
  let seller_count := sellers_df.length
  let item_count := (sellers_df.map (·.quantity)).sum
  let costs_it := ALPHA_IT * sqrtF (seller_count : ℚ) + BETA_IT * sqrtF item_count
  let profits_gross := (sellers_df.map (·.profits)).sum
  let profits_net := profits_gross - costs_it
  let margin := if revenues_total = 0 then 0 else profits_net / revenues_total
  { revenues_sales := revenues_sales
    revenues_subscription := revenues_subscription
    revenues_total := revenues_total
    costs_reviews := costs_reviews
    costs_it := costs_it
    profits_gross := profits_gross
    profits_net := profits_net
    margin := margin
    seller_count := seller_count
    item_count := item_count }

/-- One row of the seller what-if table built by `prepare_seller_strategy_data`. -/
structure StratRecord where
  sellers_removed : ℕ
  sellers_remaining : ℕ
  revenues : ℚ
  review_costs : ℚ
  it_costs : ℚ
  total_costs : ℚ
  net_profit : ℚ
  margin : ℚ
deriving Repr, DecidableEq, Inhabited

/-- Ascending sort by `profits`
(`sellers_df.sort_values(by="profits")`, `data.py` line 323). -/
def sortSellersByProfits (sellers_df : List SellerRow) : List SellerRow :=
  List.insertionSort (fun a b => a.profits ≤ b.profits) sellers_df

/-- Baseline record (`sellers_removed = 0`) of `prepare_seller_strategy_data`
(`data.py` lines 326-346); the Python conditional expression
`x / r if r else 0.0` is the zero-guarded division. -/
def strategy_base_row (sqrtF : ℚ → ℚ) (sellers_df : List SellerRow) : StratRecord :=
  let n_sellers := (sortSellersByProfits sellers_df).length
  let revenues_total := (sellers_df.map (·.revenues)).sum
  let review_costs_total := (sellers_df.map (·.cost_of_reviews)).sum
  let gross_profits_total := (sellers_df.map (·.profits)).sum
  let items_total := (sellers_df.map (·.quantity)).sum
  let base_it_cost := ALPHA_IT * sqrtF (n_sellers : ℚ) + BETA_IT * sqrtF items_total
  let base_net_profit := gross_profits_total - base_it_cost
  let base_margin := if revenues_total = 0 then 0 else base_net_profit / revenues_total
  { sellers_removed := 0
    sellers_remaining := n_sellers
    revenues := revenues_total
    review_costs := review_costs_total
    it_costs := base_it_cost
    total_costs := review_costs_total + base_it_cost
    net_profit := base_net_profit
    margin := base_margin }

/-- Record appended for removal count `step ≥ 1` by the vectorised loop of
`prepare_seller_strategy_data` (`data.py` lines 348-381).  The cumulative sums
`total - np.cumsum(vals[:-1])[idx]` are rendered as
`total - ((sorted.take step).map val).sum` with `step = idx + 1`: taking
`step ≤ n-1` leading elements never reaches the dropped last element, so the
`[:-1]` slice is invisible.  `np.divide(..., where=revenues_after != 0)` with a
zero `out` array is the zero-guarded division. -/
def strategy_step_row (sqrtF : ℚ → ℚ) (sellers_df : List SellerRow) (step : ℕ) :
    StratRecord :=
  let sorted_sellers := sortSellersByProfits sellers_df
  let n_sellers := sorted_sellers.length
  let revenues_total := (sellers_df.map (·.revenues)).sum
  let review_costs_total := (sellers_df.map (·.cost_of_reviews)).sum
  let gross_profits_total := (sellers_df.map (·.profits)).sum
  let items_total := (sellers_df.map (·.quantity)).sum
  let profits_after :=
    gross_profits_total - ((sorted_sellers.take step).map (·.profits)).sum
  let review_costs_after :=
    review_costs_total - ((sorted_sellers.take step).map (·.cost_of_reviews)).sum
  let revenues_after :=
    revenues_total - ((sorted_sellers.take step).map (·.revenues)).sum
  let items_after :=
    items_total - ((sorted_sellers.take step).map (·.quantity)).sum
  let sellers_remaining := n_sellers - step
  let it_costs_after :=
    ALPHA_IT * sqrtF (sellers_remaining : ℚ) + BETA_IT * sqrtF items_after
  let net_profit_after := profits_after - it_costs_after
  let margin_after :=
    if revenues_after = 0 then 0 else net_profit_after / revenues_after
  { sellers_removed := step
    sellers_remaining := sellers_remaining
    revenues := revenues_after
    review_costs := review_costs_after
    it_costs := it_costs_after
    total_costs := review_costs_after + it_costs_after
    net_profit := net_profit_after
    margin := margin_after }

/-- Embedding of the table built by `prepare_seller_strategy_data`
(`data.py` lines 320-383): the baseline record followed by one record per
`step` in `np.arange(1, n_sellers)`. -/
def prepare_seller_strategy_data (sqrtF : ℚ → ℚ) (sellers_df : List SellerRow) :
    List StratRecord :=
  strategy_base_row sqrtF sellers_df ::
    (List.range' 1 ((sortSellersByProfits sellers_df).length - 1)).map
      (strategy_step_row sqrtF sellers_df)

/-- Reference what-if row, written from the spec sentence: iteratively remove
the `k` least-profitable sellers (sorted ascending by profit) and naively
recompute every aggregate over the remaining sellers — revenues, review costs
and gross profits are sums over the remaining sellers, IT cost is
`ALPHA_IT*sqrt(sellers_remaining) + BETA_IT*sqrt(items_remaining)`, net profit
is remaining gross profit minus IT cost, and margin is net profit divided by
remaining revenues. -/
def naiveStrategyRow (sqrtF : ℚ → ℚ) (sellers_df : List SellerRow) (k : ℕ) :
    StratRecord :=
  let remaining := (sortSellersByProfits sellers_df).drop k
  let revenues := (remaining.map (·.revenues)).sum
  let review_costs := (remaining.map (·.cost_of_reviews)).sum
  let gross_profits := (remaining.map (·.profits)).sum
  let items_remaining := (remaining.map (·.quantity)).sum
  let it_costs := ALPHA_IT * sqrtF (remaining.length : ℚ) + BETA_IT * sqrtF items_remaining
  let net_profit := gross_profits - it_costs
  let margin := net_profit / revenues
  { sellers_removed := k
    sellers_remaining := remaining.length
    revenues := revenues
    review_costs := review_costs
    it_costs := it_costs
    total_costs := review_costs + it_costs
    net_profit := net_profit
    margin := margin }

/-! Raw transactional tables, restricted to the columns the claims'
computations read.  Identifiers are `ℕ`; timestamps are `ℤ`, and
`dt.to_period("M").dt.to_timestamp()` is an uninterpreted month projection
`monthOf : ℤ → ℤ` (no stated property depends on its values).
`order_purchase_timestamp` is modelled non-null, matching the dataset. -/

/-- One row of the orders table. -/
structure OrderRow where
  order_id : ℕ
  order_status : String
  order_purchase_timestamp : ℤ
deriving Repr, DecidableEq

/-- One row of the order-items table. -/
structure ItemRow where
  order_id : ℕ
  product_id : ℕ
  seller_id : ℕ
  price : ℚ
  freight_value : ℚ
deriving Repr, DecidableEq

/-- One row of the reviews table; `review_score` is nullable. -/
structure ReviewRow where
  order_id : ℕ
  review_score : Option ℤ
deriving Repr, DecidableEq

/-- One row of the products table; the category name is nullable. -/
structure ProductRow where
  product_id : ℕ
  product_category_name : Option String
deriving Repr, DecidableEq

/-- One row of the category-name translation table. -/
structure TranslationRow where
  product_category_name : String
  product_category_name_english : String
deriving Repr, DecidableEq

/-- Orders with `order_status == "delivered"`
(`prepare_base_frames`, `data.py` line 65). -/
def delivered_orders (orders_df : List OrderRow) : List OrderRow :=
  orders_df.filter (fun o => decide (o.order_status = "delivered"))

/-- Order items whose `order_id` is in the delivered orders
(`prepare_base_frames`, `data.py` lines 76-78). -/
def order_items_delivered (orders_df : List OrderRow) (order_items_df : List ItemRow) :
    List ItemRow :=
  order_items_df.filter
    (fun it => decide (it.order_id ∈ (delivered_orders orders_df).map (·.order_id)))

/-- Reviews with a non-null score (`dropna`, `data.py` lines 80-81);
`astype(int)` keeps the score an integer. -/
def reviews_clean (reviews_df : List ReviewRow) : List (ℕ × ℤ) :=
  reviews_df.filterMap (fun r => r.review_score.map (fun sc => (r.order_id, sc)))

/-- `COST_MAP = {1: 100, 2: 50, 3: 40, 4: 0, 5: 0}` (`data.py` line 22); a
pandas `.map` over a dict yields NaN outside the keys, modelled by `none`. -/
def COST_MAP (score : ℤ) : Option ℚ :=
  if score = 1 then some 100
  else if score = 2 then some 50
  else if score = 3 then some 40
  else if score = 4 then some 0
  else if score = 5 then some 0
  else none

/-- Per-order reputation cost table: group the clean reviews by `order_id` and
take the `max` of the mapped costs (`data.py` lines 82-85).  Pandas `max`
skips NaN values and returns NaN on an all-NaN group, hence the `Option` and
`List.max?`. -/
def order_cost (reviews_df : List ReviewRow) : List (ℕ × Option ℚ) :=
  (keysOf Prod.fst (reviews_clean reviews_df)).map (fun oid =>
    (oid, ((groupRows Prod.fst (reviews_clean reviews_df) oid).filterMap
      (fun p => COST_MAP p.2)).max?))

/-- Reputation cost of an order as read downstream: a left merge or `.map` on
the `order_cost` frame followed by `fillna(0.0)` — absent orders and NaN
values both become `0`. -/
def cost_of_order (order_cost_df : List (ℕ × Option ℚ)) (oid : ℕ) : ℚ :=
  ((List.lookup oid order_cost_df).bind id).getD 0

/-- Delivered items merged with their order's purchase timestamp and month
(`compute_monthly_metrics`, `data.py` lines 97-104).  The merge key is unique
in the orders table, so the left merge is a first-match lookup; an unmatched
row would carry a NaT month and be dropped by the subsequent group-by, hence
the `filterMap`. -/
def items_with_purchase (monthOf : ℤ → ℤ) (delivered_orders_df : List OrderRow)
    (order_items_delivered_df : List ItemRow) : List (ItemRow × ℤ) :=
  order_items_delivered_df.filterMap (fun it =>
    (delivered_orders_df.find? (fun o => decide (o.order_id = it.order_id))).map
      (fun o => (it, monthOf o.order_purchase_timestamp)))

/-- One row of the monthly metrics table. -/
structure MonthlyRow where
  month : ℤ
  gross_sales : ℚ
  freight : ℚ
  active_sellers : ℕ
  gmv : ℚ
  olist_commission : ℚ
  subscription_revenue : ℚ
  olist_revenue : ℚ
  reputation_cost : ℚ
  net_revenue : ℚ
deriving Repr, DecidableEq, Inhabited

/-- Monthly reputation cost: delivered orders left-merged with `order_cost`,
`fillna(0.0)`, grouped by purchase month and summed
(`compute_monthly_metrics`, `data.py` lines 121-128). -/
def monthly_cost (monthOf : ℤ → ℤ) (delivered_orders_df : List OrderRow)
    (order_cost_df : List (ℕ × Option ℚ)) : List (ℤ × ℚ) :=
  (keysOf (fun o => monthOf o.order_purchase_timestamp) delivered_orders_df).map
    (fun m =>
      (m, ((groupRows (fun o => monthOf o.order_purchase_timestamp)
              delivered_orders_df m).map
            (fun o => cost_of_order order_cost_df o.order_id)).sum))

/-- The monthly metrics record for month `m`
(`compute_monthly_metrics`, `data.py` lines 106-132): per-month sums of price
and freight, distinct active sellers, the derived revenue columns, and the
left-merged (`fillna(0.0)`) monthly reputation cost. -/
def monthly_row (monthOf : ℤ → ℤ) (delivered_orders_df : List OrderRow)
    (order_cost_df : List (ℕ × Option ℚ)) (merged : List (ItemRow × ℤ)) (m : ℤ) :
    MonthlyRow :=
  let grp := groupRows Prod.snd merged m
  let gross_sales := (grp.map (fun p => p.1.price)).sum
  let freight := (grp.map (fun p => p.1.freight_value)).sum
  let active_sellers := ((grp.map (fun p => p.1.seller_id)).dedup).length
  let olist_commission := gross_sales * COMMISSION_RATE
  let subscription_revenue := (active_sellers : ℚ) * SUBSCRIPTION_FEE
  let olist_revenue := olist_commission + subscription_revenue
  let reputation_cost :=
    (List.lookup m (monthly_cost monthOf delivered_orders_df order_cost_df)).getD 0
  { month := m
    gross_sales := gross_sales
    freight := freight
    active_sellers := active_sellers
    gmv := gross_sales + freight
    olist_commission := olist_commission
    subscription_revenue := subscription_revenue
    olist_revenue := olist_revenue
    reputation_cost := reputation_cost
    net_revenue := olist_revenue - reputation_cost }

/-- Embedding of `compute_monthly_metrics` (`data.py` lines 90-134): one row
per purchase month of the delivered items, sorted by month. -/
def compute_monthly_metrics (monthOf : ℤ → ℤ) (delivered_orders_df : List OrderRow)
    (order_items_delivered_df : List ItemRow) (order_cost_df : List (ℕ × Option ℚ)) :
    List MonthlyRow :=
  let merged := items_with_purchase monthOf delivered_orders_df order_items_delivered_df
  List.insertionSort (fun a b => a.month ≤ b.month)
    ((keysOf Prod.snd merged).map
      (monthly_row monthOf delivered_orders_df order_cost_df merged))

/-- Category label of an item (`compute_category_profitability`, `data.py`
lines 145-158): the product's category name mapped through the translation
table, falling back to the untranslated name, then to `"Unknown"` when the
product is missing or its category is null. -/
def product_category (products_df : List ProductRow)
    (translations_df : List TranslationRow) (it : ItemRow) : String :=
  match (products_df.find? (fun p => decide (p.product_id = it.product_id))).bind
      (fun p => p.product_category_name) with
  | none => "Unknown"
  | some nm =>
    match translations_df.find? (fun t => decide (t.product_category_name = nm)) with
    | some t => t.product_category_name_english
    | none => nm

/-- Per-order total item price
(`items.groupby("order_id")["price"].transform("sum")`, `data.py` line 160). -/
def order_price_total (items : List (ItemRow × String)) (oid : ℕ) : ℚ :=
  groupSum (fun p => p.1.order_id) (fun p => p.1.price) items oid

/-- Reputation cost allocated to one item (`data.py` lines 160-168):
`price_share * order_reputation_cost`, where the price share is the item's
price over the order total, with a zero total replaced by NA and the resulting
NA share filled with `0.0`. -/
def reputation_cost_allocated (order_cost_df : List (ℕ × Option ℚ))
    (items : List (ItemRow × String)) (p : ItemRow × String) : ℚ :=
  let total := order_price_total items p.1.order_id
  let price_share := if total = 0 then 0 else p.1.price / total
  price_share * cost_of_order order_cost_df p.1.order_id

/-- One row of the category profitability table. -/
structure CategoryRow where
  product_category : String
  gross_sales : ℚ
  reputation_cost : ℚ
  order_count : ℕ
  olist_commission : ℚ
  net_profit : ℚ
deriving Repr, DecidableEq, Inhabited

/-- The category profitability record for category `cat`
(`compute_category_profitability`, `data.py` lines 170-176). -/
def category_row (order_cost_df : List (ℕ × Option ℚ))
    (items : List (ItemRow × String)) (cat : String) : CategoryRow :=
  let grp := groupRows Prod.snd items cat
  let gross_sales := (grp.map (fun p => p.1.price)).sum
  let reputation_cost := (grp.map (reputation_cost_allocated order_cost_df items)).sum
  let order_count := ((grp.map (fun p => p.1.order_id)).dedup).length
  let olist_commission := gross_sales * COMMISSION_RATE
  { product_category := cat
    gross_sales := gross_sales
    reputation_cost := reputation_cost
    order_count := order_count
    olist_commission := olist_commission
    net_profit := olist_commission - reputation_cost }

/-- Embedding of `compute_category_profitability` (`data.py` lines 137-179):
one row per category of the delivered items, sorted by `net_profit`
descending. -/
def compute_category_profitability (order_items_delivered_df : List ItemRow)
    (products_df : List ProductRow) (translations_df : List TranslationRow)
    (order_cost_df : List (ℕ × Option ℚ)) : List CategoryRow :=
  let items := order_items_delivered_df.map
    (fun it => (it, product_category products_df translations_df it))
  List.insertionSort (fun a b => b.net_profit ≤ a.net_profit)
    ((keysOf Prod.snd items).map (category_row order_cost_df items))

/-- Profit of the top three categories as computed by `load_dashboard_data`
(`data.py` lines 490-492): `head(3)` of the category table, then the sum of
their `net_profit` column (an empty or short table sums what is there). -/
def top_category_profit (category_profitability_df : List CategoryRow) : ℚ :=
  ((category_profitability_df.take 3).map (·.net_profit)).sum

/-- Modelled from the spec wording of C10: the sum of the three largest values
of a list (all of them when fewer than three exist), via a descending sort. -/
def three_largest_sum (vals : List ℚ) : ℚ :=
  ((List.insertionSort (fun a b => b ≤ a) vals).take 3).sum

/-! Seller-strategy callback (`src/sections/seller_strategy.py` lines 82-103).
The Dash callback closes over the payload computed at start-up, reads a copy
of `strategy_df` and the highlight rows, and returns a figure plus a textual
summary; the figure is presentation glue, so the model keeps the numbers the
callback reads into its outputs and threads the closed-over data through
explicitly as state. -/

/-- The data the seller-strategy callback closes over. -/
structure DashStrategyState where
  strategy_df : List StratRecord
  max_profit : StratRecord
  max_margin : StratRecord
deriving Repr, DecidableEq

/-- The numbers rendered by the callback's summary panel. -/
structure StrategySummary where
  selected : ℕ
  net_profit : ℚ
  revenues : ℚ
  total_costs : ℚ
  sellers_remaining : ℕ
  margin : ℚ
  profit_highlight_removed : ℕ
  profit_highlight_net_profit : ℚ
  margin_highlight_removed : ℕ
  margin_highlight_margin : ℚ
deriving Repr, DecidableEq

/-- First row minimising `|sellers_removed - selected|`
(`(strategy_df["sellers_removed"] - selected).abs().idxmin()`,
`seller_strategy.py` line 99; pandas `idxmin` returns the first minimiser). -/
def idxminAbsRow (selected : ℤ) : List StratRecord → Option StratRecord
  | [] => none
  | a :: l =>
    match idxminAbsRow selected l with
    | none => some a
    | some b =>
      if |(b.sellers_removed : ℤ) - selected| < |(a.sellers_removed : ℤ) - selected|
      then some b else some a

/-- Embedding of the callback `update_seller_strategy`
(`seller_strategy.py` lines 93-186): `None` becomes `0`, a slider value absent
from the table snaps to the nearest row, and the output is built purely from
the closed-over data, which is returned unchanged. -/
def update_seller_strategy (state : DashStrategyState) (selected_value : Option ℤ) :
    Option StrategySummary × DashStrategyState :=
  if state.strategy_df = [] then (none, state)
  else
    let selected := selected_value.getD 0
    let row? :=
      if state.strategy_df.any (fun r => decide ((r.sellers_removed : ℤ) = selected))
      then state.strategy_df.find? (fun r => decide ((r.sellers_removed : ℤ) = selected))
      else idxminAbsRow selected state.strategy_df
    match row? with
    | none => (none, state)
    | some row =>
      (some { selected := row.sellers_removed
              net_profit := row.net_profit
              revenues := row.revenues
              total_costs := row.total_costs
              sellers_remaining := row.sellers_remaining
              margin := row.margin
              profit_highlight_removed := state.max_profit.sellers_removed
              profit_highlight_net_profit := state.max_profit.net_profit
              margin_highlight_removed := state.max_margin.sellers_removed
              margin_highlight_margin := state.max_margin.margin },
       state)

/-- The non-null review scores attached to order `oid` — the group the
`order_cost` aggregation maximises over. -/
def order_reviews (reviews_df : List ReviewRow) (oid : ℕ) : List ℤ :=
  (groupRows Prod.fst (reviews_clean reviews_df) oid).map Prod.snd

/-- The delivered items paired with their category label — the merged frame the
category aggregation groups over (`compute_category_profitability`,
`data.py` lines 145-158). -/
def items_with_category (order_items_delivered_df : List ItemRow)
    (products_df : List ProductRow) (translations_df : List TranslationRow) :
    List (ItemRow × String) :=
  order_items_delivered_df.map
    (fun it => (it, product_category products_df translations_df it))

instance : IsTotal CategoryRow (fun a b => b.net_profit ≤ a.net_profit) :=
  ⟨fun a b => le_total b.net_profit a.net_profit⟩

instance : IsTrans CategoryRow (fun a b => b.net_profit ≤ a.net_profit) :=
  ⟨fun _ _ _ h1 h2 => le_trans h2 h1⟩

instance : IsTotal ℚ (fun a b : ℚ => b ≤ a) :=
  ⟨fun a b => le_total b a⟩

instance : IsTrans ℚ (fun a b : ℚ => b ≤ a) :=
  ⟨fun _ _ _ h1 h2 => le_trans h2 h1⟩

instance : IsAntisymm ℚ (fun a b : ℚ => b ≤ a) :=
  ⟨fun _ _ h1 h2 => le_antisymm h2 h1⟩

section GroupBy

variable {α : Type} {κ : Type} [DecidableEq κ]

lemma mem_keysOf {key : α → κ} {l : List α} {k : κ} :
    k ∈ keysOf key l ↔ ∃ x ∈ l, key x = k := by
  simp [keysOf, List.mem_dedup, List.mem_map]

lemma sum_map_filter_not (p : α → Bool) (val : α → ℚ) (l : List α) :
    ((l.filter p).map val).sum + ((l.filter (fun x => ! p x)).map val).sum
      = (l.map val).sum := by
  induction l with
  | nil => simp
  | cons a t ih =>
    cases h : p a <;> simp [List.filter_cons, h] <;> linarith

/-- Summing a group-by `sum` column over any duplicate-free key list covering
all rows recovers the total sum: groups split the rows. -/
lemma sum_groups (key : α → κ) (val : α → ℚ) :
    ∀ ks : List κ, ks.Nodup → ∀ l : List α, (∀ x ∈ l, key x ∈ ks) →
      (ks.map (groupSum key val l)).sum = (l.map val).sum := by
  intro ks
  induction ks with
  | nil =>
    intro _ l hl
    have hnil : l = [] := by
      rw [List.eq_nil_iff_forall_not_mem]
      intro a ha
      exact absurd (hl a ha) (by simp)
    simp [hnil]
  | cons k ks ih =>
    intro hnd l hl
    obtain ⟨hk, hnd'⟩ := List.nodup_cons.mp hnd
    have hcongr : ∀ k' ∈ ks,
        groupSum key val l k'
          = groupSum key val (l.filter (fun x => ! decide (key x = k))) k' := by
      intro k' hk'
      have hne : k' ≠ k := fun h => hk (h ▸ hk')
      unfold groupSum groupRows
      rw [List.filter_filter]
      have hfil : List.filter (fun x => decide (key x = k')) l
          = List.filter (fun a => decide (key a = k') && ! decide (key a = k)) l := by
        apply List.filter_congr
        intro x _
        by_cases hx : key x = k'
        · simp [hx, hne]
        · simp [hx]
      rw [hfil]
    have hcover : ∀ x ∈ l.filter (fun x => ! decide (key x = k)), key x ∈ ks := by
      intro x hx
      rw [List.mem_filter] at hx
      rcases hl x hx.1 with hmem
      have hxk : key x ≠ k := by
        intro h
        simp [h] at hx
      rcases List.mem_cons.mp hmem with h | h
      · exact absurd h hxk
      · exact h
    calc (((k :: ks)).map (groupSum key val l)).sum
        = groupSum key val l k + (ks.map (groupSum key val l)).sum := by simp
      _ = groupSum key val l k
            + (ks.map (groupSum key val (l.filter (fun x => ! decide (key x = k))))).sum := by
          rw [List.map_congr_left hcongr]
      _ = groupSum key val l k
            + ((l.filter (fun x => ! decide (key x = k))).map val).sum := by
          rw [ih hnd' _ hcover]
      _ = (l.map val).sum := sum_map_filter_not _ val l

/-- Summing a group-by `sum` column over all groups recovers the total sum. -/
lemma sum_keysOf_groups (key : α → κ) (val : α → ℚ) (l : List α) :
    ((keysOf key l).map (groupSum key val l)).sum = (l.map val).sum :=
  sum_groups key val _ (List.nodup_dedup _) l (fun x hx => mem_keysOf.mpr ⟨x, hx, rfl⟩)

end GroupBy

section Lookup

variable {κ : Type} {β : Type} [DecidableEq κ]

/-- Looking a present key up in an association table built by mapping over a key
list returns the tabulated value for that key. -/
lemma lookup_map_self (f : κ → β) :
    ∀ (ks : List κ) (k : κ), k ∈ ks →
      List.lookup k (ks.map (fun j => (j, f j))) = some (f k) := by
  intro ks
  induction ks with
  | nil => intro k hk; cases hk
  | cons a t ih =>
    intro k hk
    by_cases h : k = a
    · subst h
      simp [List.lookup_cons]
    · have hmem : k ∈ t := by
        rcases List.mem_cons.mp hk with h' | h'
        · exact absurd h' h
        · exact h'
      simp only [List.map_cons, List.lookup_cons]
      have : (k == a) = false := beq_false_of_ne h
      rw [this]
      exact ih k hmem

/-- Looking an absent key up in such an association table returns `none`. -/
lemma lookup_map_self_none (f : κ → β) :
    ∀ (ks : List κ) (k : κ), k ∉ ks →
      List.lookup k (ks.map (fun j => (j, f j))) = none := by
  intro ks
  induction ks with
  | nil => intro k _; rfl
  | cons a t ih =>
    intro k hk
    have hne : k ≠ a := fun h => hk (h ▸ List.mem_cons_self a t)
    have hmem : k ∉ t := fun h => hk (List.mem_cons_of_mem a h)
    simp only [List.map_cons, List.lookup_cons]
    have : (k == a) = false := beq_false_of_ne hne
    rw [this]
    exact ih k hmem

end Lookup

section ListSums

variable {α : Type} {β : Type}

/-- A `filterMap` whose function is defined on every element of the list
preserves a column sum whenever the projections agree. -/
lemma sum_map_filterMap_of_forall (g : α → Option β) (v : α → ℚ) (w : β → ℚ) :
    ∀ l : List α, (∀ a ∈ l, ∃ b, g a = some b ∧ w b = v a) →
      ((l.filterMap g).map w).sum = (l.map v).sum := by
  intro l
  induction l with
  | nil => intro _; simp
  | cons a t ih =>
    intro h
    obtain ⟨b, hb, hw⟩ := h a (List.mem_cons_self a t)
    have ht := ih (fun x hx => h x (List.mem_cons_of_mem a hx))
    simp [List.filterMap_cons, hb, hw, ht]

/-- Summing `if p k then f k else 0` over a list equals summing `f` over the
sub-list where `p` holds. -/
lemma sum_map_ite_zero (p : α → Bool) (f : α → ℚ) (l : List α) :
    (l.map (fun k => if p k then f k else 0)).sum = ((l.filter p).map f).sum := by
  induction l with
  | nil => simp
  | cons a t ih =>
    cases h : p a <;> simp [List.filter_cons, h, ih]

/-- Subtracting the sum over a `take`-sub-list from the total gives the sum over
the matching `drop`-sub-list. -/
lemma sum_map_sub_take (val : α → ℚ) (l : List α) (k : ℕ) :
    (l.map val).sum - ((l.take k).map val).sum = ((l.drop k).map val).sum := by
  have h := List.sum_take_add_sum_drop (l.map val) k
  rw [List.map_take, List.map_drop]
  linarith

/-- Column sums are invariant under sorting. -/
lemma sum_map_insertionSort (r : α → α → Prop) [DecidableRel r] (val : α → ℚ)
    (l : List α) :
    ((List.insertionSort r l).map val).sum = (l.map val).sum :=
  ((List.perm_insertionSort r l).map val).sum_eq

/-- The head of a non-empty list, read through `getD`, is a member. -/
lemma getD_zero_mem (l : List α) (d : α) (h : l ≠ []) : l.getD 0 d ∈ l := by
  cases l with
  | nil => exact absurd rfl h
  | cons a t => simp

end ListSums

lemma length_sortSellersByProfits (sellers_df : List SellerRow) :
    (sortSellersByProfits sellers_df).length = sellers_df.length :=
  List.length_insertionSort _ _

lemma sum_map_sortSellersByProfits (val : SellerRow → ℚ) (sellers_df : List SellerRow) :
    ((sortSellersByProfits sellers_df).map val).sum = (sellers_df.map val).sum :=
  sum_map_insertionSort _ val sellers_df

lemma prepare_seller_strategy_data_length (sqrtF : ℚ → ℚ) (sellers_df : List SellerRow) :
    (prepare_seller_strategy_data sqrtF sellers_df).length
      = (sellers_df.length - 1) + 1 := by
  simp [prepare_seller_strategy_data, length_sortSellersByProfits]

/-- A guarded division whose guard only short-circuits a zero denominator is
plain rational division. -/
lemma ite_div_eq_div (a b : ℚ) : (if b = 0 then 0 else a / b) = a / b := by
  rcases eq_or_ne b 0 with h | h
  · rw [if_pos h, h, div_zero]
  · rw [if_neg h]

/-- Every step record of the optimised cumulative-sum loop equals the naive
remove-and-recompute reference row. -/
lemma strategy_step_row_eq_naive (sqrtF : ℚ → ℚ) (sellers_df : List SellerRow)
    (step : ℕ) :
    strategy_step_row sqrtF sellers_df step = naiveStrategyRow sqrtF sellers_df step := by
  have hrev := sum_map_sub_take (·.revenues) (sortSellersByProfits sellers_df) step
  have hcost := sum_map_sub_take (·.cost_of_reviews) (sortSellersByProfits sellers_df) step
  have hprof := sum_map_sub_take (·.profits) (sortSellersByProfits sellers_df) step
  have hqty := sum_map_sub_take (·.quantity) (sortSellersByProfits sellers_df) step
  rw [sum_map_sortSellersByProfits] at hrev hcost hprof hqty
  unfold strategy_step_row naiveStrategyRow
  simp only [hrev, hcost, hprof, hqty, List.length_drop, ite_div_eq_div]

/-- The baseline record equals the naive reference row at removal count `0`. -/
lemma strategy_base_row_eq_naive (sqrtF : ℚ → ℚ) (sellers_df : List SellerRow) :
    strategy_base_row sqrtF sellers_df = naiveStrategyRow sqrtF sellers_df 0 := by
  unfold strategy_base_row naiveStrategyRow
  simp only [List.drop_zero, sum_map_sortSellersByProfits, ite_div_eq_div]

/-- Every row of the what-if table equals the naive reference row at its own
removal count. -/
lemma prepare_getD_eq_naive (sqrtF : ℚ → ℚ) (sellers_df : List SellerRow) (k : ℕ)
    (hk : k < (prepare_seller_strategy_data sqrtF sellers_df).length) :
    (prepare_seller_strategy_data sqrtF sellers_df).getD k default
      = naiveStrategyRow sqrtF sellers_df k := by
  cases k with
  | zero =>
    rw [prepare_seller_strategy_data, List.getD_cons_zero]
    exact strategy_base_row_eq_naive sqrtF sellers_df
  | succ k =>
    rw [prepare_seller_strategy_data_length] at hk
    have hk' : k < sellers_df.length - 1 := Nat.lt_of_succ_lt_succ hk
    have hlen : k < ((List.range' 1 ((sortSellersByProfits sellers_df).length - 1)).map
        (strategy_step_row sqrtF sellers_df)).length := by
      simp [length_sortSellersByProfits, hk']
    rw [prepare_seller_strategy_data, List.getD_cons_succ,
      List.getD_eq_getElem _ _ hlen, List.getElem_map, List.getElem_range']
    rw [Nat.one_mul, Nat.add_comm 1 k]
    exact strategy_step_row_eq_naive sqrtF sellers_df (k + 1)

/-- C1: in the seller what-if simulation, for every sellers table and every
removal count `k` present in the produced table, the row for `k` removed equals
a naive recomputation over the sellers remaining after deleting the `k` sellers
with the smallest profits: revenues, review costs and gross profits are sums
over the remaining sellers, IT cost is
`ALPHA_IT*sqrt(sellers_remaining) + BETA_IT*sqrt(items_remaining)`, net profit
is the remaining gross profit minus that IT cost, and margin is net profit
divided by remaining revenues — the cumulative-sum implementation refines the
iterative remove-and-recompute reference. -/
theorem strategy_table_matches_naive_recomputation (sqrtF : ℚ → ℚ)
    (sellers_df : List SellerRow) (k : ℕ)
    (hk : k < (prepare_seller_strategy_data sqrtF sellers_df).length) :
    (prepare_seller_strategy_data sqrtF sellers_df).getD k default
      = naiveStrategyRow sqrtF sellers_df k :=
  prepare_getD_eq_naive sqrtF sellers_df k hk

/-- Witness for C1 on a concrete two-seller table at removal count `1`. -/
theorem strategy_table_matches_naive_recomputation_witness :
    1 < (prepare_seller_strategy_data (fun q => q)
          [⟨1, 2, 10, 3, 4, 5⟩, ⟨2, 1, 8, 2, 6, 1⟩]).length
    ∧ (prepare_seller_strategy_data (fun q => q)
          [⟨1, 2, 10, 3, 4, 5⟩, ⟨2, 1, 8, 2, 6, 1⟩]).getD 1 default
        = naiveStrategyRow (fun q => q) [⟨1, 2, 10, 3, 4, 5⟩, ⟨2, 1, 8, 2, 6, 1⟩] 1 :=
  ⟨by rw [prepare_seller_strategy_data_length]; norm_num,
   strategy_table_matches_naive_recomputation _ _ 1
     (by rw [prepare_seller_strategy_data_length]; norm_num)⟩

/-- C2 counterexample: on a one-seller table the produced what-if table has a
single row and no row removes all `n = 1` sellers, refuting the claim that a
row exists for every removal count from `0` up to removing all `n` sellers. -/
theorem strategy_table_missing_full_removal_row :
    (prepare_seller_strategy_data (fun q => q) [⟨1, 2, 10, 3, 4, 5⟩]).length = 1
    ∧ ∀ r ∈ prepare_seller_strategy_data (fun q => q) [⟨1, 2, 10, 3, 4, 5⟩],
        r.sellers_removed ≠ 1 := by
  constructor
  · rw [prepare_seller_strategy_data_length]
    rfl
  · intro r hr
    simp only [prepare_seller_strategy_data, length_sortSellersByProfits,
      List.length_cons, List.length_nil] at hr
    norm_num at hr
    rw [hr]
    simp [strategy_base_row]

/-- C2 (amended): the what-if table has exactly one row for each removal count
from `0` to `n - 1` — the last seller is never removed — plus the single
baseline row when the table is empty; `sellers_removed` increases by `1` from
`0` and `sellers_remaining` is `n` minus `sellers_removed` in each row. -/
theorem strategy_table_removal_counts (sqrtF : ℚ → ℚ) (sellers_df : List SellerRow) :
    (prepare_seller_strategy_data sqrtF sellers_df).length = max sellers_df.length 1
    ∧ ∀ k, k < (prepare_seller_strategy_data sqrtF sellers_df).length →
        ((prepare_seller_strategy_data sqrtF sellers_df).getD k default).sellers_removed = k
        ∧ ((prepare_seller_strategy_data sqrtF sellers_df).getD k default).sellers_remaining
            = sellers_df.length - k := by
  constructor
  · rw [prepare_seller_strategy_data_length]
    omega
  · intro k hk
    rw [prepare_getD_eq_naive sqrtF sellers_df k hk]
    unfold naiveStrategyRow
    constructor
    · rfl
    · simp [List.length_drop, length_sortSellersByProfits]

/-- Witness for the amended C2 on a concrete two-seller table. -/
theorem strategy_table_removal_counts_witness :
    (prepare_seller_strategy_data (fun q => q)
        [⟨1, 2, 10, 3, 4, 5⟩, ⟨2, 1, 8, 2, 6, 1⟩]).length = max 2 1
    ∧ ((prepare_seller_strategy_data (fun q => q)
        [⟨1, 2, 10, 3, 4, 5⟩, ⟨2, 1, 8, 2, 6, 1⟩]).getD 1 default).sellers_removed = 1
    ∧ ((prepare_seller_strategy_data (fun q => q)
        [⟨1, 2, 10, 3, 4, 5⟩, ⟨2, 1, 8, 2, 6, 1⟩]).getD 1 default).sellers_remaining
          = 2 - 1 :=
  ⟨(strategy_table_removal_counts _ _).1,
   ((strategy_table_removal_counts _ _).2 1
      (by rw [prepare_seller_strategy_data_length]; norm_num)).1,
   ((strategy_table_removal_counts _ _).2 1
      (by rw [prepare_seller_strategy_data_length]; norm_num)).2⟩

/-- C6: the what-if baseline row (`sellers_removed = 0`) agrees with
`compute_financial_overview` on the same sellers table: revenues,
review costs, IT costs, net profit and margin coincide with
`revenues_total`, `costs_reviews`, `costs_it`, `profits_net` and `margin`. -/
theorem strategy_baseline_matches_financial_overview (sqrtF : ℚ → ℚ)
    (sellers_df : List SellerRow) :
    (prepare_seller_strategy_data sqrtF sellers_df).head?.map (·.revenues)
        = some (compute_financial_overview sqrtF sellers_df).revenues_total
    ∧ (prepare_seller_strategy_data sqrtF sellers_df).head?.map (·.review_costs)
        = some (compute_financial_overview sqrtF sellers_df).costs_reviews
    ∧ (prepare_seller_strategy_data sqrtF sellers_df).head?.map (·.it_costs)
        = some (compute_financial_overview sqrtF sellers_df).costs_it
    ∧ (prepare_seller_strategy_data sqrtF sellers_df).head?.map (·.net_profit)
        = some (compute_financial_overview sqrtF sellers_df).profits_net
    ∧ (prepare_seller_strategy_data sqrtF sellers_df).head?.map (·.margin)
        = some (compute_financial_overview sqrtF sellers_df).margin := by
  refine ⟨?_, ?_, ?_, ?_, ?_⟩ <;>
    simp [prepare_seller_strategy_data, strategy_base_row,
      compute_financial_overview, length_sortSellersByProfits]

/-- C9: margin computation is division-safe — when total revenues are zero the
reported margin is exactly `0`, both in `compute_financial_overview` and in
every row of the what-if table whose remaining revenues are zero. -/
theorem margin_division_safe (sqrtF : ℚ → ℚ) (sellers_df : List SellerRow) :
    ((sellers_df.map (·.revenues)).sum = 0 →
        (compute_financial_overview sqrtF sellers_df).margin = 0)
    ∧ ∀ r ∈ prepare_seller_strategy_data sqrtF sellers_df,
        r.revenues = 0 → r.margin = 0 := by
  constructor
  · intro h
    simp [compute_financial_overview, h]
  · intro r hr hrev
    rcases List.mem_cons.mp hr with hbase | hstep
    · subst hbase
      simp only [strategy_base_row] at hrev ⊢
      rw [if_pos hrev]
    · obtain ⟨step, _, hr'⟩ := List.mem_map.mp hstep
      subst hr'
      simp only [strategy_step_row] at hrev ⊢
      rw [if_pos hrev]

/-- Witness for C9 on a concrete all-zero seller table. -/
theorem margin_division_safe_witness :
    (compute_financial_overview (fun q => q) [⟨0, 0, 0, 0, 0, 0⟩]).margin = 0
    ∧ ((prepare_seller_strategy_data (fun q => q)
        [⟨0, 0, 0, 0, 0, 0⟩]).getD 0 default).margin = 0 :=
  ⟨(margin_division_safe _ _).1 (by norm_num),
   (margin_division_safe _ _).2 _
     (getD_zero_mem _ _ (by simp [prepare_seller_strategy_data]))
     (by simp [prepare_seller_strategy_data, strategy_base_row])⟩

/-- C8: the aggregated payload computed at start-up stays unchanged — for every
slider value (including `none` and values absent from the table) the
seller-strategy callback returns the closed-over data unmodified, so repeated
invocations with any inputs observe identical data and produce identical
outputs. -/
theorem update_seller_strategy_preserves_payload (state : DashStrategyState)
    (v : Option ℤ) :
    (update_seller_strategy state v).2 = state
    ∧ ∀ v', update_seller_strategy ((update_seller_strategy state v).2) v'
        = update_seller_strategy state v' := by
  have h2 : (update_seller_strategy state v).2 = state := by
    unfold update_seller_strategy
    split
    · rfl
    · dsimp only
      split <;> rfl
  exact ⟨h2, fun v' => by rw [h2]⟩

/-- Sums of an item column are unchanged by the purchase-timestamp merge: the
merge key is present for every delivered item, so no row is dropped. -/
lemma items_with_purchase_sum_col (monthOf : ℤ → ℤ) (orders_df : List OrderRow)
    (order_items_df : List ItemRow) (val : ItemRow → ℚ) :
    ((items_with_purchase monthOf (delivered_orders orders_df)
        (order_items_delivered orders_df order_items_df)).map (fun p => val p.1)).sum
      = ((order_items_delivered orders_df order_items_df).map val).sum := by
  unfold items_with_purchase
  apply sum_map_filterMap_of_forall
  intro it hit
  have hmem : it.order_id ∈ (delivered_orders orders_df).map (·.order_id) :=
    of_decide_eq_true (List.mem_filter.mp hit).2
  obtain ⟨o, ho, hoid⟩ := List.mem_map.mp hmem
  have hsome : ((delivered_orders orders_df).find?
      (fun o => decide (o.order_id = it.order_id))).isSome := by
    rw [List.find?_isSome]
    exact ⟨o, ho, by simp [hoid]⟩
  obtain ⟨o', ho'⟩ := Option.isSome_iff_exists.mp hsome
  exact ⟨(it, monthOf o'.order_purchase_timestamp), by rw [ho']; rfl, rfl⟩

/-- C7: in every month row produced by `compute_monthly_metrics`, `gmv` equals
`gross_sales` plus `freight`, where `gross_sales` sums `price` and `freight`
sums `freight_value` over that month's delivered order items. -/
theorem monthly_gmv_is_gross_plus_freight (monthOf : ℤ → ℤ)
    (delivered_orders_df : List OrderRow) (order_items_delivered_df : List ItemRow)
    (order_cost_df : List (ℕ × Option ℚ)) :
    ∀ row ∈ compute_monthly_metrics monthOf delivered_orders_df
        order_items_delivered_df order_cost_df,
      row.gmv = row.gross_sales + row.freight
      ∧ row.gross_sales = ((groupRows Prod.snd
            (items_with_purchase monthOf delivered_orders_df order_items_delivered_df)
            row.month).map (fun p => p.1.price)).sum
      ∧ row.freight = ((groupRows Prod.snd
            (items_with_purchase monthOf delivered_orders_df order_items_delivered_df)
            row.month).map (fun p => p.1.freight_value)).sum := by
  intro row hrow
  unfold compute_monthly_metrics at hrow
  rw [(List.perm_insertionSort _ _).mem_iff] at hrow
  obtain ⟨m, _, hrow'⟩ := List.mem_map.mp hrow
  subst hrow'
  exact ⟨rfl, rfl, rfl⟩

/-- Witness for C7 on a one-order, one-item dataset. -/
theorem monthly_gmv_is_gross_plus_freight_witness :
    ((compute_monthly_metrics (fun t => t) [⟨1, "delivered", 0⟩]
        [⟨1, 5, 7, 10, 2⟩] []).getD 0 default).gmv
      = ((compute_monthly_metrics (fun t => t) [⟨1, "delivered", 0⟩]
        [⟨1, 5, 7, 10, 2⟩] []).getD 0 default).gross_sales
        + ((compute_monthly_metrics (fun t => t) [⟨1, "delivered", 0⟩]
        [⟨1, 5, 7, 10, 2⟩] []).getD 0 default).freight :=
  (monthly_gmv_is_gross_plus_freight (fun t => t) [⟨1, "delivered", 0⟩]
    [⟨1, 5, 7, 10, 2⟩] [] _
    (getD_zero_mem _ _ (by decide))).1

/-- C3: commission is the platform's percentage cut of item price on delivered
orders — in both `compute_monthly_metrics` and `compute_category_profitability`
the `olist_commission` column totals `COMMISSION_RATE` times the summed `price`
of the order items belonging to delivered orders only, and each row's
commission is `COMMISSION_RATE` times that row's summed item price; freight
values and items of non-delivered orders contribute nothing. -/
theorem commission_counts_delivered_items_only (monthOf : ℤ → ℤ)
    (orders_df : List OrderRow) (order_items_df : List ItemRow)
    (reviews_df : List ReviewRow) (products_df : List ProductRow)
    (translations_df : List TranslationRow) :
    ((compute_monthly_metrics monthOf (delivered_orders orders_df)
        (order_items_delivered orders_df order_items_df)
        (order_cost reviews_df)).map (·.olist_commission)).sum
      = COMMISSION_RATE * ((order_items_delivered orders_df order_items_df).map (·.price)).sum
    ∧ ((compute_category_profitability (order_items_delivered orders_df order_items_df)
        products_df translations_df (order_cost reviews_df)).map (·.olist_commission)).sum
      = COMMISSION_RATE * ((order_items_delivered orders_df order_items_df).map (·.price)).sum
    ∧ (∀ row ∈ compute_monthly_metrics monthOf (delivered_orders orders_df)
          (order_items_delivered orders_df order_items_df) (order_cost reviews_df),
        row.olist_commission = COMMISSION_RATE * row.gross_sales)
    ∧ (∀ row ∈ compute_category_profitability
          (order_items_delivered orders_df order_items_df)
          products_df translations_df (order_cost reviews_df),
        row.olist_commission = COMMISSION_RATE * row.gross_sales) := by
  refine ⟨?_, ?_, ?_, ?_⟩
  · unfold compute_monthly_metrics
    rw [sum_map_insertionSort, List.map_map]
    calc ((keysOf Prod.snd (items_with_purchase monthOf (delivered_orders orders_df)
              (order_items_delivered orders_df order_items_df))).map
            ((fun r : MonthlyRow => r.olist_commission) ∘
              monthly_row monthOf (delivered_orders orders_df) (order_cost reviews_df)
                (items_with_purchase monthOf (delivered_orders orders_df)
                  (order_items_delivered orders_df order_items_df)))).sum
        = ((keysOf Prod.snd (items_with_purchase monthOf (delivered_orders orders_df)
              (order_items_delivered orders_df order_items_df))).map
            (fun m => groupSum Prod.snd (fun p => p.1.price)
              (items_with_purchase monthOf (delivered_orders orders_df)
                (order_items_delivered orders_df order_items_df)) m
              * COMMISSION_RATE)).sum := rfl
      _ = ((keysOf Prod.snd (items_with_purchase monthOf (delivered_orders orders_df)
              (order_items_delivered orders_df order_items_df))).map
            (groupSum Prod.snd (fun p => p.1.price)
              (items_with_purchase monthOf (delivered_orders orders_df)
                (order_items_delivered orders_df order_items_df)))).sum
            * COMMISSION_RATE := List.sum_map_mul_right _ _ _
      _ = ((items_with_purchase monthOf (delivered_orders orders_df)
              (order_items_delivered orders_df order_items_df)).map
            (fun p => p.1.price)).sum * COMMISSION_RATE := by
          rw [sum_keysOf_groups]
      _ = ((order_items_delivered orders_df order_items_df).map (·.price)).sum
            * COMMISSION_RATE := by
          rw [items_with_purchase_sum_col]
      _ = COMMISSION_RATE
            * ((order_items_delivered orders_df order_items_df).map (·.price)).sum :=
          mul_comm _ _
  · unfold compute_category_profitability
    rw [sum_map_insertionSort, List.map_map]
    calc ((keysOf Prod.snd ((order_items_delivered orders_df order_items_df).map
              (fun it => (it, product_category products_df translations_df it)))).map
            ((fun r : CategoryRow => r.olist_commission) ∘
              category_row (order_cost reviews_df)
                ((order_items_delivered orders_df order_items_df).map
                  (fun it => (it, product_category products_df translations_df it))))).sum
        = ((keysOf Prod.snd ((order_items_delivered orders_df order_items_df).map
              (fun it => (it, product_category products_df translations_df it)))).map
            (fun cat => groupSum Prod.snd (fun p => p.1.price)
              ((order_items_delivered orders_df order_items_df).map
                (fun it => (it, product_category products_df translations_df it))) cat
              * COMMISSION_RATE)).sum := rfl
      _ = ((keysOf Prod.snd ((order_items_delivered orders_df order_items_df).map
              (fun it => (it, product_category products_df translations_df it)))).map
            (groupSum Prod.snd (fun p => p.1.price)
              ((order_items_delivered orders_df order_items_df).map
                (fun it => (it, product_category products_df translations_df it))))).sum
            * COMMISSION_RATE := List.sum_map_mul_right _ _ _
      _ = (((order_items_delivered orders_df order_items_df).map
              (fun it => (it, product_category products_df translations_df it))).map
            (fun p => p.1.price)).sum * COMMISSION_RATE := by
          rw [sum_keysOf_groups]
      _ = COMMISSION_RATE
            * ((order_items_delivered orders_df order_items_df).map (·.price)).sum := by
          rw [List.map_map]
          exact mul_comm _ _
  · intro row hrow
    unfold compute_monthly_metrics at hrow
    rw [(List.perm_insertionSort _ _).mem_iff] at hrow
    obtain ⟨m, _, hrow'⟩ := List.mem_map.mp hrow
    subst hrow'
    exact mul_comm _ _
  · intro row hrow
    unfold compute_category_profitability at hrow
    rw [(List.perm_insertionSort _ _).mem_iff] at hrow
    obtain ⟨cat, _, hrow'⟩ := List.mem_map.mp hrow
    subst hrow'
    exact mul_comm _ _

/-- Witness for C3 on a one-order, one-item dataset, at the single monthly row
and the single category row. -/
theorem commission_counts_delivered_items_only_witness :
    ((compute_monthly_metrics (fun t => t) (delivered_orders [⟨1, "delivered", 0⟩])
        (order_items_delivered [⟨1, "delivered", 0⟩] [⟨1, 5, 7, 10, 2⟩])
        (order_cost [])).map (·.olist_commission)).sum
      = COMMISSION_RATE
        * ((order_items_delivered [⟨1, "delivered", 0⟩] [⟨1, 5, 7, 10, 2⟩]).map (·.price)).sum
    ∧ ((compute_monthly_metrics (fun t => t) (delivered_orders [⟨1, "delivered", 0⟩])
          (order_items_delivered [⟨1, "delivered", 0⟩] [⟨1, 5, 7, 10, 2⟩])
          (order_cost [])).getD 0 default).olist_commission
        = COMMISSION_RATE
          * ((compute_monthly_metrics (fun t => t) (delivered_orders [⟨1, "delivered", 0⟩])
              (order_items_delivered [⟨1, "delivered", 0⟩] [⟨1, 5, 7, 10, 2⟩])
              (order_cost [])).getD 0 default).gross_sales
    ∧ ((compute_category_profitability
          (order_items_delivered [⟨1, "delivered", 0⟩] [⟨1, 5, 7, 10, 2⟩]) [] []
          (order_cost [])).getD 0 default).olist_commission
        = COMMISSION_RATE
          * ((compute_category_profitability
              (order_items_delivered [⟨1, "delivered", 0⟩] [⟨1, 5, 7, 10, 2⟩]) [] []
              (order_cost [])).getD 0 default).gross_sales :=
  ⟨(commission_counts_delivered_items_only (fun t => t) [⟨1, "delivered", 0⟩]
      [⟨1, 5, 7, 10, 2⟩] [] [] []).1,
   (commission_counts_delivered_items_only (fun t => t) [⟨1, "delivered", 0⟩]
      [⟨1, 5, 7, 10, 2⟩] [] [] []).2.2.1 _ (getD_zero_mem _ _ (by decide)),
   (commission_counts_delivered_items_only (fun t => t) [⟨1, "delivered", 0⟩]
      [⟨1, 5, 7, 10, 2⟩] [] [] []).2.2.2 _ (getD_zero_mem _ _ (by decide))⟩

/-- C4: the per-order reputation cost is the maximum over that order's non-null
reviews of `COST_MAP` applied to the integer score (1 ↦ 100, 2 ↦ 50, 3 ↦ 40,
4 ↦ 0, 5 ↦ 0); an order with no non-null review has reputation cost `0`, and
each monthly rollup row sums exactly these per-order costs over its month's
delivered orders, so a review-less order contributes `0` there. -/
theorem reputation_cost_is_max_review_cost (reviews_df : List ReviewRow) (oid : ℕ) :
    (order_reviews reviews_df oid ≠ [] →
      (∀ sc ∈ order_reviews reviews_df oid, 1 ≤ sc ∧ sc ≤ 5) →
      ((order_reviews reviews_df oid).filterMap COST_MAP).max?
        = some (cost_of_order (order_cost reviews_df) oid))
    ∧ (order_reviews reviews_df oid = [] →
        cost_of_order (order_cost reviews_df) oid = 0)
    ∧ ∀ (monthOf : ℤ → ℤ) (delivered_orders_df : List OrderRow)
        (order_items_delivered_df : List ItemRow),
        ∀ row ∈ compute_monthly_metrics monthOf delivered_orders_df
            order_items_delivered_df (order_cost reviews_df),
          row.reputation_cost
            = ((groupRows (fun o => monthOf o.order_purchase_timestamp)
                delivered_orders_df row.month).map
                (fun o => cost_of_order (order_cost reviews_df) o.order_id)).sum := by
  refine ⟨?_, ?_, ?_⟩
  · intro hne hrange
    have hgrp : groupRows Prod.fst (reviews_clean reviews_df) oid ≠ [] := by
      intro h
      exact hne (by unfold order_reviews; rw [h]; rfl)
    obtain ⟨p, hp⟩ := List.exists_mem_of_ne_nil _ hgrp
    have hpc : p ∈ reviews_clean reviews_df := (List.mem_filter.mp hp).1
    have hpo : p.1 = oid := of_decide_eq_true (List.mem_filter.mp hp).2
    have hkey : oid ∈ keysOf Prod.fst (reviews_clean reviews_df) :=
      mem_keysOf.mpr ⟨p, hpc, hpo⟩
    have hlk := lookup_map_self
      (fun o => ((groupRows Prod.fst (reviews_clean reviews_df) o).filterMap
        (fun p => COST_MAP p.2)).max?)
      (keysOf Prod.fst (reviews_clean reviews_df)) oid hkey
    unfold cost_of_order order_cost
    rw [hlk]
    simp only [Option.some_bind, id_eq]
    have hLL : (order_reviews reviews_df oid).filterMap COST_MAP
        = (groupRows Prod.fst (reviews_clean reviews_df) oid).filterMap
            (fun p => COST_MAP p.2) := by
      unfold order_reviews
      rw [List.filterMap_map]
      rfl
    rw [hLL]
    have hsc : (1 : ℤ) ≤ p.2 ∧ p.2 ≤ 5 :=
      hrange p.2 (List.mem_map.mpr ⟨p, hp, rfl⟩)
    have hcm : ∃ c, COST_MAP p.2 = some c := by
      unfold COST_MAP
      split_ifs <;> first | exact ⟨_, rfl⟩ | omega
    obtain ⟨c, hc⟩ := hcm
    have hLne : (groupRows Prod.fst (reviews_clean reviews_df) oid).filterMap
        (fun p => COST_MAP p.2) ≠ [] :=
      List.ne_nil_of_mem (List.mem_filterMap.mpr ⟨p, hp, hc⟩)
    obtain ⟨x, hx⟩ : ∃ x, ((groupRows Prod.fst (reviews_clean reviews_df) oid).filterMap
        (fun p => COST_MAP p.2)).max? = some x := by
      cases hmax : ((groupRows Prod.fst (reviews_clean reviews_df) oid).filterMap
          (fun p => COST_MAP p.2)).max? with
      | none => exact absurd (List.max?_eq_none_iff.mp hmax) hLne
      | some x => exact ⟨x, rfl⟩
    rw [hx]
    rfl
  · intro hnil
    have hgrp : groupRows Prod.fst (reviews_clean reviews_df) oid = [] := by
      by_contra h
      obtain ⟨p, hp⟩ := List.exists_mem_of_ne_nil _ h
      have hm : p.2 ∈ order_reviews reviews_df oid := List.mem_map.mpr ⟨p, hp, rfl⟩
      rw [hnil] at hm
      cases hm
    have hkey : oid ∉ keysOf Prod.fst (reviews_clean reviews_df) := by
      intro hk
      obtain ⟨x, hx, hxo⟩ := mem_keysOf.mp hk
      have hm : x ∈ groupRows Prod.fst (reviews_clean reviews_df) oid :=
        List.mem_filter.mpr ⟨hx, decide_eq_true hxo⟩
      rw [hgrp] at hm
      cases hm
    have hlk := lookup_map_self_none
      (fun o => ((groupRows Prod.fst (reviews_clean reviews_df) o).filterMap
        (fun p => COST_MAP p.2)).max?)
      (keysOf Prod.fst (reviews_clean reviews_df)) oid hkey
    unfold cost_of_order order_cost
    rw [hlk]
    rfl
  · intro monthOf delivered_orders_df order_items_delivered_df row hrow
    unfold compute_monthly_metrics at hrow
    rw [(List.perm_insertionSort _ _).mem_iff] at hrow
    obtain ⟨m, _, hrow'⟩ := List.mem_map.mp hrow
    subst hrow'
    show (List.lookup m (monthly_cost monthOf delivered_orders_df
        (order_cost reviews_df))).getD 0
      = ((groupRows (fun o => monthOf o.order_purchase_timestamp)
          delivered_orders_df m).map
          (fun o => cost_of_order (order_cost reviews_df) o.order_id)).sum
    by_cases hm : m ∈ keysOf (fun o => monthOf o.order_purchase_timestamp)
        delivered_orders_df
    · have hlk := lookup_map_self
        (fun m => ((groupRows (fun o => monthOf o.order_purchase_timestamp)
            delivered_orders_df m).map
          (fun o => cost_of_order (order_cost reviews_df) o.order_id)).sum)
        (keysOf (fun o => monthOf o.order_purchase_timestamp) delivered_orders_df) m hm
      unfold monthly_cost
      rw [hlk]
      rfl
    · have hlk := lookup_map_self_none
        (fun m => ((groupRows (fun o => monthOf o.order_purchase_timestamp)
            delivered_orders_df m).map
          (fun o => cost_of_order (order_cost reviews_df) o.order_id)).sum)
        (keysOf (fun o => monthOf o.order_purchase_timestamp) delivered_orders_df) m hm
      unfold monthly_cost
      rw [hlk]
      have hgrp : groupRows (fun o => monthOf o.order_purchase_timestamp)
          delivered_orders_df m = [] := by
        unfold groupRows
        rw [List.filter_eq_nil_iff]
        intro o ho hdec
        exact hm (mem_keysOf.mpr ⟨o, ho, of_decide_eq_true hdec⟩)
      rw [hgrp]
      rfl

/-- Witness for C4: an order with reviews scored 1 and 3, an order with no
non-null review, and the monthly rollup on a one-order dataset. -/
theorem reputation_cost_is_max_review_cost_witness :
    ((order_reviews [⟨1, some 1⟩, ⟨1, some 3⟩, ⟨2, none⟩] 1).filterMap COST_MAP).max?
        = some (cost_of_order (order_cost [⟨1, some 1⟩, ⟨1, some 3⟩, ⟨2, none⟩]) 1)
    ∧ cost_of_order (order_cost [⟨1, some 1⟩, ⟨1, some 3⟩, ⟨2, none⟩]) 3 = 0
    ∧ ((compute_monthly_metrics (fun t => t) [⟨1, "delivered", 0⟩]
          [⟨1, 5, 7, 10, 2⟩]
          (order_cost [⟨1, some 1⟩, ⟨1, some 3⟩, ⟨2, none⟩])).getD 0
            default).reputation_cost
        = ((groupRows (fun o : OrderRow => o.order_purchase_timestamp) [⟨1, "delivered", 0⟩]
            ((compute_monthly_metrics (fun t => t) [⟨1, "delivered", 0⟩]
              [⟨1, 5, 7, 10, 2⟩]
              (order_cost [⟨1, some 1⟩, ⟨1, some 3⟩, ⟨2, none⟩])).getD 0
                default).month).map
            (fun o => cost_of_order
              (order_cost [⟨1, some 1⟩, ⟨1, some 3⟩, ⟨2, none⟩]) o.order_id)).sum :=
  ⟨(reputation_cost_is_max_review_cost _ 1).1 (by decide) (by decide),
   (reputation_cost_is_max_review_cost _ 3).2.1 (by decide),
   (reputation_cost_is_max_review_cost [⟨1, some 1⟩, ⟨1, some 3⟩, ⟨2, none⟩] 1).2.2
     (fun t => t) [⟨1, "delivered", 0⟩] [⟨1, 5, 7, 10, 2⟩] _
     (getD_zero_mem _ _ (by decide))⟩

/-- For an order whose total item price is non-zero, the allocated reputation
costs of its items sum back to the order's reputation cost: the price shares
sum to one. -/
lemma alloc_sum_of_total_ne_zero (order_cost_df : List (ℕ × Option ℚ))
    (items : List (ItemRow × String)) (oid : ℕ)
    (h0 : order_price_total items oid ≠ 0) :
    ((groupRows (fun p => p.1.order_id) items oid).map
        (reputation_cost_allocated order_cost_df items)).sum
      = cost_of_order order_cost_df oid := by
  have hcong : ∀ p ∈ groupRows (fun p => p.1.order_id) items oid,
      reputation_cost_allocated order_cost_df items p
        = p.1.price * (cost_of_order order_cost_df oid / order_price_total items oid) := by
    intro p hp
    have hpid : p.1.order_id = oid := of_decide_eq_true (List.mem_filter.mp hp).2
    unfold reputation_cost_allocated
    dsimp only
    rw [hpid, if_neg h0]
    ring
  rw [List.map_congr_left hcong, List.sum_map_mul_right]
  have hT : ((groupRows (fun p => p.1.order_id) items oid).map
      (fun p => p.1.price)).sum = order_price_total items oid := rfl
  rw [hT, mul_comm, div_mul_cancel₀ _ h0]

/-- For an order whose total item price is zero, every price share is filled
with `0`, so the allocated reputation costs of its items sum to zero. -/
lemma alloc_sum_of_total_zero (order_cost_df : List (ℕ × Option ℚ))
    (items : List (ItemRow × String)) (oid : ℕ)
    (h0 : order_price_total items oid = 0) :
    ((groupRows (fun p => p.1.order_id) items oid).map
        (reputation_cost_allocated order_cost_df items)).sum = 0 := by
  apply List.sum_eq_zero
  intro x hx
  obtain ⟨p, hp, hpx⟩ := List.mem_map.mp hx
  subst hpx
  have hpid : p.1.order_id = oid := of_decide_eq_true (List.mem_filter.mp hp).2
  unfold reputation_cost_allocated
  dsimp only
  rw [hpid, if_pos h0, zero_mul]

/-- C5: the category cost allocation conserves order-level reputation cost —
for every order with non-zero total item price the allocated costs of its items
sum to exactly the order's reputation cost, and consequently the
`reputation_cost` column of the category table totals the per-order reputation
costs over the orders with non-zero item-price total. -/
theorem reputation_allocation_conserves_order_cost
    (order_items_delivered_df : List ItemRow) (products_df : List ProductRow)
    (translations_df : List TranslationRow) (order_cost_df : List (ℕ × Option ℚ)) :
    (∀ oid, order_price_total
        (items_with_category order_items_delivered_df products_df translations_df)
        oid ≠ 0 →
      ((groupRows (fun p => p.1.order_id)
          (items_with_category order_items_delivered_df products_df translations_df)
          oid).map
        (reputation_cost_allocated order_cost_df
          (items_with_category order_items_delivered_df products_df
            translations_df))).sum
        = cost_of_order order_cost_df oid)
    ∧ ((compute_category_profitability order_items_delivered_df products_df
          translations_df order_cost_df).map (·.reputation_cost)).sum
        = (((keysOf (fun p => p.1.order_id)
              (items_with_category order_items_delivered_df products_df
                translations_df)).filter
            (fun oid => decide (order_price_total
              (items_with_category order_items_delivered_df products_df
                translations_df) oid ≠ 0))).map
            (cost_of_order order_cost_df)).sum := by
  constructor
  · intro oid h0
    exact alloc_sum_of_total_ne_zero order_cost_df _ oid h0
  · unfold compute_category_profitability items_with_category
    rw [sum_map_insertionSort, List.map_map]
    calc ((keysOf Prod.snd ((order_items_delivered_df).map
              (fun it => (it, product_category products_df translations_df it)))).map
            ((fun r : CategoryRow => r.reputation_cost) ∘
              category_row order_cost_df ((order_items_delivered_df).map
                (fun it => (it, product_category products_df translations_df it))))).sum
        = ((keysOf Prod.snd ((order_items_delivered_df).map
              (fun it => (it, product_category products_df translations_df it)))).map
            (groupSum Prod.snd
              (reputation_cost_allocated order_cost_df
                ((order_items_delivered_df).map
                  (fun it => (it, product_category products_df translations_df it))))
              ((order_items_delivered_df).map
                (fun it => (it, product_category products_df translations_df it))))).sum :=
          rfl
      _ = (((order_items_delivered_df).map
              (fun it => (it, product_category products_df translations_df it))).map
            (reputation_cost_allocated order_cost_df
              ((order_items_delivered_df).map
                (fun it => (it, product_category products_df translations_df it))))).sum :=
          sum_keysOf_groups _ _ _
      _ = ((keysOf (fun p => p.1.order_id) ((order_items_delivered_df).map
              (fun it => (it, product_category products_df translations_df it)))).map
            (groupSum (fun p => p.1.order_id)
              (reputation_cost_allocated order_cost_df
                ((order_items_delivered_df).map
                  (fun it => (it, product_category products_df translations_df it))))
              ((order_items_delivered_df).map
                (fun it => (it, product_category products_df translations_df it))))).sum :=
          (sum_keysOf_groups _ _ _).symm
      _ = ((keysOf (fun p => p.1.order_id) ((order_items_delivered_df).map
              (fun it => (it, product_category products_df translations_df it)))).map
            (fun oid => if decide (order_price_total ((order_items_delivered_df).map
                (fun it => (it, product_category products_df translations_df it)))
                oid ≠ 0)
              then cost_of_order order_cost_df oid else 0)).sum := by
          refine congrArg List.sum (List.map_congr_left ?_)
          intro oid _
          by_cases h0 : order_price_total ((order_items_delivered_df).map
              (fun it => (it, product_category products_df translations_df it))) oid = 0
          · rw [if_neg (by simp [h0])]
            exact alloc_sum_of_total_zero _ _ _ h0
          · rw [if_pos (by simp [h0])]
            exact alloc_sum_of_total_ne_zero _ _ _ h0
      _ = (((keysOf (fun p => p.1.order_id) ((order_items_delivered_df).map
              (fun it => (it, product_category products_df translations_df it)))).filter
            (fun oid => decide (order_price_total ((order_items_delivered_df).map
              (fun it => (it, product_category products_df translations_df it)))
              oid ≠ 0))).map
            (cost_of_order order_cost_df)).sum :=
          sum_map_ite_zero _ _ _

/-- Witness for C5 on a one-item order with reputation cost `100`. -/
theorem reputation_allocation_conserves_order_cost_witness :
    ((groupRows (fun p => p.1.order_id)
        (items_with_category [⟨1, 5, 7, 10, 2⟩] [] []) 1).map
      (reputation_cost_allocated [(1, some 100)]
        (items_with_category [⟨1, 5, 7, 10, 2⟩] [] []))).sum
      = cost_of_order [(1, some 100)] 1
    ∧ ((compute_category_profitability [⟨1, 5, 7, 10, 2⟩] [] []
          [(1, some 100)]).map (·.reputation_cost)).sum
        = (((keysOf (fun p => p.1.order_id)
              (items_with_category [⟨1, 5, 7, 10, 2⟩] [] [])).filter
            (fun oid => decide (order_price_total
              (items_with_category [⟨1, 5, 7, 10, 2⟩] [] []) oid ≠ 0))).map
            (cost_of_order [(1, some 100)])).sum :=
  ⟨(reputation_allocation_conserves_order_cost [⟨1, 5, 7, 10, 2⟩] [] []
      [(1, some 100)]).1 1
      (by norm_num [order_price_total, groupSum, groupRows, items_with_category,
        product_category]),
   (reputation_allocation_conserves_order_cost [⟨1, 5, 7, 10, 2⟩] [] []
      [(1, some 100)]).2⟩

/-- C10: the category profitability table is sorted in non-increasing order of
`net_profit`, the first three rows (`head(3)`) dominate every later row, and
`top_category_profit` is the sum of the three largest category net profits
(of all of them when fewer than three exist). -/
theorem category_table_sorted_top3 (order_items_delivered_df : List ItemRow)
    (products_df : List ProductRow) (translations_df : List TranslationRow)
    (order_cost_df : List (ℕ × Option ℚ)) :
    List.Sorted (fun a b : CategoryRow => b.net_profit ≤ a.net_profit)
      (compute_category_profitability order_items_delivered_df products_df
        translations_df order_cost_df)
    ∧ (∀ x ∈ (compute_category_profitability order_items_delivered_df products_df
          translations_df order_cost_df).take 3,
        ∀ y ∈ (compute_category_profitability order_items_delivered_df products_df
          translations_df order_cost_df).drop 3,
          y.net_profit ≤ x.net_profit)
    ∧ top_category_profit (compute_category_profitability order_items_delivered_df
          products_df translations_df order_cost_df)
        = three_largest_sum ((compute_category_profitability order_items_delivered_df
            products_df translations_df order_cost_df).map (·.net_profit)) := by
  have hsorted : List.Sorted (fun a b : CategoryRow => b.net_profit ≤ a.net_profit)
      (compute_category_profitability order_items_delivered_df products_df
        translations_df order_cost_df) := by
    unfold compute_category_profitability
    exact List.sorted_insertionSort _ _
  refine ⟨hsorted, ?_, ?_⟩
  · have hsplit := hsorted
    rw [← List.take_append_drop 3 (compute_category_profitability
      order_items_delivered_df products_df translations_df order_cost_df)] at hsplit
    exact (List.pairwise_append.mp hsplit).2.2
  · have hmap : List.Sorted (fun a b : ℚ => b ≤ a)
        ((compute_category_profitability order_items_delivered_df products_df
          translations_df order_cost_df).map (·.net_profit)) :=
      List.Pairwise.map _ (fun _ _ h => h) hsorted
    have heq : List.insertionSort (fun a b : ℚ => b ≤ a)
        ((compute_category_profitability order_items_delivered_df products_df
          translations_df order_cost_df).map (·.net_profit))
        = (compute_category_profitability order_items_delivered_df products_df
            translations_df order_cost_df).map (·.net_profit) :=
      List.eq_of_perm_of_sorted (List.perm_insertionSort _ _)
        (List.sorted_insertionSort _ _) hmap
    unfold top_category_profit three_largest_sum
    rw [heq, List.map_take]

/-- Witness for C10 on a four-category dataset: the theorem applied at the
first row of `head(3)` and the first row beyond it. -/
theorem category_table_sorted_top3_witness :
    List.Sorted (fun a b : CategoryRow => b.net_profit ≤ a.net_profit)
      (compute_category_profitability
        [⟨1, 1, 1, 40, 0⟩, ⟨1, 2, 1, 30, 0⟩, ⟨1, 3, 1, 20, 0⟩, ⟨1, 4, 1, 10, 0⟩]
        [⟨1, some "a"⟩, ⟨2, some "b"⟩, ⟨3, some "c"⟩, ⟨4, some "d"⟩] [] [])
    ∧ (((compute_category_profitability
          [⟨1, 1, 1, 40, 0⟩, ⟨1, 2, 1, 30, 0⟩, ⟨1, 3, 1, 20, 0⟩, ⟨1, 4, 1, 10, 0⟩]
          [⟨1, some "a"⟩, ⟨2, some "b"⟩, ⟨3, some "c"⟩, ⟨4, some "d"⟩] [] []).drop
            3).getD 0 default).net_profit
        ≤ (((compute_category_profitability
          [⟨1, 1, 1, 40, 0⟩, ⟨1, 2, 1, 30, 0⟩, ⟨1, 3, 1, 20, 0⟩, ⟨1, 4, 1, 10, 0⟩]
          [⟨1, some "a"⟩, ⟨2, some "b"⟩, ⟨3, some "c"⟩, ⟨4, some "d"⟩] [] []).take
            3).getD 0 default).net_profit
    ∧ top_category_profit (compute_category_profitability
          [⟨1, 1, 1, 40, 0⟩, ⟨1, 2, 1, 30, 0⟩, ⟨1, 3, 1, 20, 0⟩, ⟨1, 4, 1, 10, 0⟩]
          [⟨1, some "a"⟩, ⟨2, some "b"⟩, ⟨3, some "c"⟩, ⟨4, some "d"⟩] [] [])
        = three_largest_sum ((compute_category_profitability
            [⟨1, 1, 1, 40, 0⟩, ⟨1, 2, 1, 30, 0⟩, ⟨1, 3, 1, 20, 0⟩, ⟨1, 4, 1, 10, 0⟩]
            [⟨1, some "a"⟩, ⟨2, some "b"⟩, ⟨3, some "c"⟩, ⟨4, some "d"⟩] [] []).map
              (·.net_profit)) :=
  ⟨(category_table_sorted_top3
      [⟨1, 1, 1, 40, 0⟩, ⟨1, 2, 1, 30, 0⟩, ⟨1, 3, 1, 20, 0⟩, ⟨1, 4, 1, 10, 0⟩]
      [⟨1, some "a"⟩, ⟨2, some "b"⟩, ⟨3, some "c"⟩, ⟨4, some "d"⟩] [] []).1,
   (category_table_sorted_top3
      [⟨1, 1, 1, 40, 0⟩, ⟨1, 2, 1, 30, 0⟩, ⟨1, 3, 1, 20, 0⟩, ⟨1, 4, 1, 10, 0⟩]
      [⟨1, some "a"⟩, ⟨2, some "b"⟩, ⟨3, some "c"⟩, ⟨4, some "d"⟩] [] []).2.1 _
      (getD_zero_mem _ _ (by
        intro hnil
        have hl := congrArg List.length hnil
        rw [List.length_take] at hl
        have h4 : (compute_category_profitability
            [⟨1, 1, 1, 40, 0⟩, ⟨1, 2, 1, 30, 0⟩, ⟨1, 3, 1, 20, 0⟩, ⟨1, 4, 1, 10, 0⟩]
            [⟨1, some "a"⟩, ⟨2, some "b"⟩, ⟨3, some "c"⟩, ⟨4, some "d"⟩] [] []).length
            = 4 := by
          simp only [compute_category_profitability, List.length_insertionSort,
            List.length_map]
          decide
        rw [h4] at hl
        norm_num at hl))
      _
      (getD_zero_mem _ _ (by
        intro hnil
        have hl := congrArg List.length hnil
        rw [List.length_drop] at hl
        have h4 : (compute_category_profitability
            [⟨1, 1, 1, 40, 0⟩, ⟨1, 2, 1, 30, 0⟩, ⟨1, 3, 1, 20, 0⟩, ⟨1, 4, 1, 10, 0⟩]
            [⟨1, some "a"⟩, ⟨2, some "b"⟩, ⟨3, some "c"⟩, ⟨4, some "d"⟩] [] []).length
            = 4 := by
          simp only [compute_category_profitability, List.length_insertionSort,
            List.length_map]
          decide
        rw [h4] at hl
        norm_num at hl)),
   (category_table_sorted_top3
      [⟨1, 1, 1, 40, 0⟩, ⟨1, 2, 1, 30, 0⟩, ⟨1, 3, 1, 20, 0⟩, ⟨1, 4, 1, 10, 0⟩]
      [⟨1, some "a"⟩, ⟨2, some "b"⟩, ⟨3, some "c"⟩, ⟨4, some "d"⟩] [] []).2.2⟩


end OlistDash

